import Mathlib

/-!
Shallow embedding of `src/Socket.ts` of the miio-api repository.

The source is a UDP request/response correlation client.  Its core is the
`send` method: for each call it registers a per-call `onMessage` listener on
the shared socket, optionally starts a timeout timer, transmits the payload,
and settles a single promise from whichever of three triggers fires first —
a datagram whose parsed value satisfies `match`, the timer, or an OS-level
send error reported to the send callback.

We embed each `send` call as a small state machine (`CallState`, `step`): the
state records whether the call's listener is still attached, whether its
timer is still pending, and the promise's single-settlement slot (`settle`
keeps the first settlement, as JS promises do).  External occurrences —
inbound datagrams, the timer firing, the send callback — are events folded
over the state (`run`).

The connect path: `_connect` is decorated with `reusePromise` (imported from
`./utils`, whose source is not part of this snapshot), so the single-flight
sharing of the in-flight connect attempt is modelled from the spec
(`connStep`).  The promise executor of `_connect` itself is in the source and
is embedded directly (`connectCallback`).
-/

/-- A JavaScript `Error` value, reduced to the one observable field the code
uses: its `message` string. -/
structure JsError where
  message : String
deriving DecidableEq

/-- The three resolution kinds of a `send` call in `src/Socket.ts`: the
resolve path with the matched parsed value, the timeout rejection
(`new Error("Socket timeout")`), and the transport rejection with the error
from the send callback. -/
inductive Outcome (R E : Type) where
  | resolved (v : R)
  | timedOut
  | transportFailed (e : E)
deriving DecidableEq

/-- Per-call ephemeral state of one `send` call: whether its `onMessage`
listener is attached to the socket, whether its timeout timer is pending,
and the promise's single-settlement slot (`none` = still pending). -/
structure CallState (R E : Type) where
  listenerRegistered : Bool
  timerActive : Bool
  outcome : Option (Outcome R E)
deriving DecidableEq

/-- External occurrences a pending `send` call can observe: an inbound
datagram on the shared socket, its timer firing, and the OS send callback
(`err` is `none` on success, `some e` on a transport error). -/
inductive Event (M E : Type) where
  | datagram (msg : M)
  | timerFire
  | sendCallback (err : Option E)
deriving DecidableEq

/-- JS promise settlement semantics: the first call to resolve/reject wins,
later ones are ignored. -/
def settle {R E : Type} (cur : Option (Outcome R E)) (o : Outcome R E) :
    Option (Outcome R E) :=
  match cur with
  | some x => some x
  | none => some o

/-- State of a `send` call right after its promise executor ran: the listener
is attached (`socket.on("message", onMessage)`), the timer is pending exactly
when `timeout` is truthy (`if (timeout) timer = setTimeout(...)`), and the
promise is pending. -/
def initState (R E : Type) (timeout : Nat) : CallState R E :=
  { listenerRegistered := true, timerActive := timeout != 0, outcome := none }

/-- One event of a `send` call, embedded from `src/Socket.ts` lines 79–112:

* `datagram msg` — `onMessage` runs only while the listener is attached; it
  evaluates `parse msg`.  If `parse` throws (`none` here), the exception
  propagates out of the listener and nothing in this call's state changes.
  If it returns `parsed` and `match parsed` holds, the handler clears the
  timer, removes the listener and resolves with `parsed`; otherwise nothing
  happens for this call.
* `timerFire` — only a still-pending timer can fire; the handler removes the
  listener and rejects with the timeout error.
* `sendCallback none` — a successful transmission's callback does nothing.
* `sendCallback (some e)` — the error path clears the timer, removes the
  listener and rejects with `e`. -/
def step {M R E : Type} (parse : M → Option R) (match_ : R → Bool)
    (s : CallState R E) : Event M E → CallState R E
  | Event.datagram msg =>
    if s.listenerRegistered then
      match parse msg with
      | none => s
      | some parsed =>
        if match_ parsed then
          { listenerRegistered := false, timerActive := false,
            outcome := settle s.outcome (Outcome.resolved parsed) }
        else s
    else s
  | Event.timerFire =>
    if s.timerActive then
      { listenerRegistered := false, timerActive := false,
        outcome := settle s.outcome Outcome.timedOut }
    else s
  | Event.sendCallback none => s
  | Event.sendCallback (some e) =>
    { listenerRegistered := false, timerActive := false,
      outcome := settle s.outcome (Outcome.transportFailed e) }

/-- Fold a sequence of external events over a `send` call's state. -/
def run {M R E : Type} (parse : M → Option R) (match_ : R → Bool)
    (s : CallState R E) (events : List (Event M E)) : CallState R E :=
  events.foldl (step parse match_) s

/-- Events that are no-ops for a given call: a datagram whose `parse` throws,
a datagram whose parsed value fails `match`, and a successful send callback. -/
def inertEvent {M R E : Type} (parse : M → Option R) (match_ : R → Bool) :
    Event M E → Bool
  | Event.datagram msg =>
    match parse msg with
    | none => true
    | some parsed => !match_ parsed
  | Event.timerFire => false
  | Event.sendCallback none => true
  | Event.sendCallback (some _) => false

/-- The `timeout` parameter of `send`, with its declared default
(`timeout = 5000`): `none` models an omitted argument. -/
def sendTimeout (t : Option Nat) : Nat :=
  t.getD 5000

/-- The error constructed in the timeout path of `send`:
`new Error("Socket timeout")`. -/
def socketTimeoutError : JsError :=
  { message := "Socket timeout" }

/-- The JS error value each failure outcome passes to `reject`: the timeout
path rejects `socketTimeoutError`, the transport path rejects the send
callback's error unchanged; the resolve path rejects nothing. -/
def rejectionError {R : Type} : Outcome R JsError → Option JsError
  | Outcome.resolved _ => none
  | Outcome.timedOut => some socketTimeoutError
  | Outcome.transportFailed e => some e

/-- How a promise executor settles its promise. -/
inductive PromiseSettle (E A : Type) where
  | resolveWith (a : A)
  | rejectWith (e : E)
deriving DecidableEq

/-- The callback `_connect` passes to `socket.connect` (`src/Socket.ts` lines
45–52): `() => { resolve(); }`.  Node's dgram connect callback is invoked
with no argument on success and with the error on failure; the source's
callback takes no parameter, so it discards any error and resolves the
`_connect` promise unconditionally — the executor wires no reject path at
all. -/
def connectCallback (e : Option JsError) : PromiseSettle JsError Unit :=
  match e with
  | _ => PromiseSettle.resolveWith ()

/-- Connection state of the client, as the spec's per-client state machine
names it. -/
inductive ConnState where
  | unbound
  | connecting
  | connected
deriving DecidableEq

/-- Observable bookkeeping for the shared connect step: the connection state,
how many callers are attached to the in-flight attempt, how many underlying
`socket.connect` invocations were issued, and how many callers have so far
observed completion (`succeeded`) or rejection (`failed`) of their connect
wait. -/
structure ConnectGuard where
  state : ConnState
  waiters : Nat
  connectCalls : Nat
  succeeded : Nat
  failed : Nat
deriving DecidableEq

/-- Events of the shared connect step: a `send` call observing
not-connected and invoking `_connect`, and the shared `_connect` promise
resolving. -/
inductive ConnEvent where
  | request
  | complete
deriving DecidableEq

/-- A freshly constructed client: unconnected, no waiters, no connect
invocations. -/
def connInit : ConnectGuard :=
  { state := ConnState.unbound, waiters := 0, connectCalls := 0,
    succeeded := 0, failed := 0 }

/-- Modelled from the spec: the `reusePromise` decorator on `_connect` is
imported from `./utils`, whose source is not in this snapshot.  Per the spec,
it memoizes the in-flight promise: the first caller in state `unbound`
issues the one underlying connect operation and moves to `connecting`;
every further caller arriving while `connecting` attaches to the same
pending attempt without a new connect invocation; when the shared promise
resolves, every attached waiter observes that same completion and the state
becomes `connected`; a caller arriving when already connected proceeds
immediately. -/
def connStep (g : ConnectGuard) : ConnEvent → ConnectGuard
  | ConnEvent.request =>
    match g.state with
    | ConnState.unbound =>
      { g with state := ConnState.connecting, waiters := g.waiters + 1,
               connectCalls := g.connectCalls + 1 }
    | ConnState.connecting =>
      { g with waiters := g.waiters + 1 }
    | ConnState.connected =>
      { g with succeeded := g.succeeded + 1 }
  | ConnEvent.complete =>
    match g.state with
    | ConnState.connecting =>
      { g with state := ConnState.connected,
               succeeded := g.succeeded + g.waiters, waiters := 0 }
    | _ => g

/-- Fold a sequence of connect-step events over the guard state. -/
def connRun (g : ConnectGuard) (events : List ConnEvent) : ConnectGuard :=
  events.foldl connStep g

/-- Concrete parse function used in witnesses: even payloads parse to their
half, odd payloads make `parse` throw. -/
def evenHalf (m : Nat) : Option Nat :=
  if m % 2 = 0 then some (m / 2) else none

/-- Concrete match predicate used in witnesses: waits for parsed value `3`. -/
def wantsThree (v : Nat) : Bool :=
  v == 3

/-! ### Helper lemmas about the per-call machine -/

theorem settle_isSome {R E : Type} (cur : Option (Outcome R E)) (o : Outcome R E) :
    (settle cur o).isSome = true := by
  cases cur <;> rfl

theorem settle_none {R E : Type} (o : Outcome R E) :
    settle (none : Option (Outcome R E)) o = some o := rfl

theorem settle_some {R E : Type} (x o : Outcome R E) :
    settle (some x) o = some x := rfl

theorem step_datagram_not_listening {M R E : Type} (parse : M → Option R)
    (match_ : R → Bool) (s : CallState R E) (msg : M)
    (hl : s.listenerRegistered = false) :
    step parse match_ s (Event.datagram msg) = s := by
  simp [step, hl]

theorem step_datagram_parse_none {M R E : Type} (parse : M → Option R)
    (match_ : R → Bool) (s : CallState R E) (msg : M)
    (hp : parse msg = none) :
    step parse match_ s (Event.datagram msg) = s := by
  cases hl : s.listenerRegistered <;> simp [step, hl, hp]

theorem step_datagram_no_match {M R E : Type} (parse : M → Option R)
    (match_ : R → Bool) (s : CallState R E) (msg : M) (v : R)
    (hp : parse msg = some v) (hm : match_ v = false) :
    step parse match_ s (Event.datagram msg) = s := by
  cases hl : s.listenerRegistered <;> simp [step, hl, hp, hm]

theorem step_datagram_match {M R E : Type} (parse : M → Option R)
    (match_ : R → Bool) (s : CallState R E) (msg : M) (v : R)
    (hl : s.listenerRegistered = true) (hp : parse msg = some v)
    (hm : match_ v = true) :
    step parse match_ s (Event.datagram msg) =
      ⟨false, false, settle s.outcome (Outcome.resolved v)⟩ := by
  simp [step, hl, hp, hm]

theorem step_timer_inactive {M R E : Type} (parse : M → Option R)
    (match_ : R → Bool) (s : CallState R E) (ht : s.timerActive = false) :
    step parse match_ s Event.timerFire = s := by
  simp [step, ht]

theorem step_timer_active {M R E : Type} (parse : M → Option R)
    (match_ : R → Bool) (s : CallState R E) (ht : s.timerActive = true) :
    step parse match_ s Event.timerFire =
      ⟨false, false, settle s.outcome Outcome.timedOut⟩ := by
  simp [step, ht]

theorem step_sendCallback_ok {M R E : Type} (parse : M → Option R)
    (match_ : R → Bool) (s : CallState R E) :
    step parse match_ s (Event.sendCallback none) = s := rfl

theorem step_sendCallback_err {M R E : Type} (parse : M → Option R)
    (match_ : R → Bool) (s : CallState R E) (e : E) :
    step parse match_ s (Event.sendCallback (some e)) =
      ⟨false, false, settle s.outcome (Outcome.transportFailed e)⟩ := rfl

theorem step_inert {M R E : Type} (parse : M → Option R) (match_ : R → Bool)
    (s : CallState R E) (ev : Event M E)
    (h : inertEvent parse match_ ev = true) :
    step parse match_ s ev = s := by
  cases ev with
  | datagram msg =>
    cases hp : parse msg with
    | none => exact step_datagram_parse_none parse match_ s msg hp
    | some parsed =>
      have hm : match_ parsed = false := by
        simpa [inertEvent, hp] using h
      exact step_datagram_no_match parse match_ s msg parsed hp hm
  | timerFire => simp [inertEvent] at h
  | sendCallback err =>
    cases err with
    | none => rfl
    | some e => simp [inertEvent] at h

theorem run_inert {M R E : Type} (parse : M → Option R) (match_ : R → Bool)
    (events : List (Event M E)) :
    ∀ s : CallState R E, (∀ ev ∈ events, inertEvent parse match_ ev = true) →
      run parse match_ s events = s := by
  induction events with
  | nil => intro s _; rfl
  | cons ev rest ih =>
    intro s h
    have h1 : inertEvent parse match_ ev = true := h ev (List.mem_cons_self ev rest)
    have h2 : ∀ x ∈ rest, inertEvent parse match_ x = true :=
      fun x hx => h x (List.mem_cons_of_mem ev hx)
    show List.foldl (step parse match_) (step parse match_ s ev) rest = s
    rw [step_inert parse match_ s ev h1]
    exact ih s h2

theorem step_settled {M R E : Type} (parse : M → Option R) (match_ : R → Bool)
    (o : Outcome R E) (ev : Event M E) :
    step parse match_ ⟨false, false, some o⟩ ev = ⟨false, false, some o⟩ := by
  cases ev with
  | datagram msg =>
    exact step_datagram_not_listening parse match_ _ msg rfl
  | timerFire =>
    exact step_timer_inactive parse match_ _ rfl
  | sendCallback err =>
    cases err with
    | none => rfl
    | some e => simp [step, settle]

theorem run_settled {M R E : Type} (parse : M → Option R) (match_ : R → Bool)
    (o : Outcome R E) (events : List (Event M E)) :
    run parse match_ ⟨false, false, some o⟩ events = ⟨false, false, some o⟩ := by
  induction events with
  | nil => rfl
  | cons ev rest ih =>
    show List.foldl (step parse match_)
      (step parse match_ ⟨false, false, some o⟩ ev) rest = _
    rw [step_settled parse match_ o ev]
    exact ih

/-- In every branch of `step` that settles the promise, the same branch also
removes the listener and clears the timer, so the cleanup invariant is
preserved. -/
theorem step_cleanup {M R E : Type} (parse : M → Option R) (match_ : R → Bool)
    (s : CallState R E) (ev : Event M E)
    (h : s.outcome.isSome = true →
      s.listenerRegistered = false ∧ s.timerActive = false) :
    (step parse match_ s ev).outcome.isSome = true →
      (step parse match_ s ev).listenerRegistered = false ∧
        (step parse match_ s ev).timerActive = false := by
  cases ev with
  | datagram msg =>
    cases hl : s.listenerRegistered with
    | false => rw [step_datagram_not_listening parse match_ s msg hl]; exact h
    | true =>
      cases hp : parse msg with
      | none => rw [step_datagram_parse_none parse match_ s msg hp]; exact h
      | some parsed =>
        cases hm : match_ parsed with
        | false =>
          rw [step_datagram_no_match parse match_ s msg parsed hp hm]; exact h
        | true =>
          rw [step_datagram_match parse match_ s msg parsed hl hp hm]
          exact fun _ => ⟨rfl, rfl⟩
  | timerFire =>
    cases ht : s.timerActive with
    | false => rw [step_timer_inactive parse match_ s ht]; exact h
    | true =>
      rw [step_timer_active parse match_ s ht]
      exact fun _ => ⟨rfl, rfl⟩
  | sendCallback err =>
    cases err with
    | none => exact h
    | some e =>
      rw [step_sendCallback_err parse match_ s e]
      exact fun _ => ⟨rfl, rfl⟩

/-- The cleanup invariant holds along any run. -/
theorem run_cleanup {M R E : Type} (parse : M → Option R) (match_ : R → Bool)
    (events : List (Event M E)) :
    ∀ s : CallState R E,
      (s.outcome.isSome = true →
        s.listenerRegistered = false ∧ s.timerActive = false) →
      (run parse match_ s events).outcome.isSome = true →
        (run parse match_ s events).listenerRegistered = false ∧
          (run parse match_ s events).timerActive = false := by
  induction events with
  | nil => intro s h; exact h
  | cons ev rest ih =>
    intro s h
    exact ih (step parse match_ s ev) (step_cleanup parse match_ s ev h)

/-- Every branch of `step` that clears the timer also settles the promise,
so "timer still pending or already settled" is preserved. -/
theorem step_live {M R E : Type} (parse : M → Option R) (match_ : R → Bool)
    (s : CallState R E) (ev : Event M E)
    (h : s.timerActive = true ∨ s.outcome.isSome = true) :
    (step parse match_ s ev).timerActive = true ∨
      (step parse match_ s ev).outcome.isSome = true := by
  cases ev with
  | datagram msg =>
    cases hl : s.listenerRegistered with
    | false => rw [step_datagram_not_listening parse match_ s msg hl]; exact h
    | true =>
      cases hp : parse msg with
      | none => rw [step_datagram_parse_none parse match_ s msg hp]; exact h
      | some parsed =>
        cases hm : match_ parsed with
        | false =>
          rw [step_datagram_no_match parse match_ s msg parsed hp hm]; exact h
        | true =>
          rw [step_datagram_match parse match_ s msg parsed hl hp hm]
          exact Or.inr (settle_isSome s.outcome (Outcome.resolved parsed))
  | timerFire =>
    cases ht : s.timerActive with
    | false => rw [step_timer_inactive parse match_ s ht]; exact h
    | true =>
      rw [step_timer_active parse match_ s ht]
      exact Or.inr (settle_isSome s.outcome Outcome.timedOut)
  | sendCallback err =>
    cases err with
    | none => exact h
    | some e =>
      rw [step_sendCallback_err parse match_ s e]
      exact Or.inr (settle_isSome s.outcome (Outcome.transportFailed e))

/-- The liveness invariant holds along any run. -/
theorem run_live {M R E : Type} (parse : M → Option R) (match_ : R → Bool)
    (events : List (Event M E)) :
    ∀ s : CallState R E, s.timerActive = true ∨ s.outcome.isSome = true →
      (run parse match_ s events).timerActive = true ∨
        (run parse match_ s events).outcome.isSome = true := by
  induction events with
  | nil => intro s h; exact h
  | cons ev rest ih =>
    intro s h
    exact ih (step parse match_ s ev) (step_live parse match_ s ev h)

/-- A call with timeout `0` never has a pending timer and never acquires the
timeout outcome: the `if (timeout)` guard skips `setTimeout`, and the only
branch producing `Outcome.timedOut` requires a pending timer. -/
theorem step_no_timeout {M R E : Type} (parse : M → Option R)
    (match_ : R → Bool) (s : CallState R E) (ev : Event M E)
    (h : s.timerActive = false ∧ s.outcome ≠ some Outcome.timedOut) :
    (step parse match_ s ev).timerActive = false ∧
      (step parse match_ s ev).outcome ≠ some Outcome.timedOut := by
  obtain ⟨ht, ho⟩ := h
  cases ev with
  | datagram msg =>
    cases hl : s.listenerRegistered with
    | false =>
      rw [step_datagram_not_listening parse match_ s msg hl]; exact ⟨ht, ho⟩
    | true =>
      cases hp : parse msg with
      | none =>
        rw [step_datagram_parse_none parse match_ s msg hp]; exact ⟨ht, ho⟩
      | some parsed =>
        cases hm : match_ parsed with
        | false =>
          rw [step_datagram_no_match parse match_ s msg parsed hp hm]
          exact ⟨ht, ho⟩
        | true =>
          rw [step_datagram_match parse match_ s msg parsed hl hp hm]
          refine ⟨rfl, ?_⟩
          cases hc : s.outcome with
          | none => simp [settle]
          | some x =>
            rw [hc] at ho
            simp only [settle]
            intro hx
            exact ho (by simpa using hx)
  | timerFire =>
    rw [step_timer_inactive parse match_ s ht]; exact ⟨ht, ho⟩
  | sendCallback err =>
    cases err with
    | none => exact ⟨ht, ho⟩
    | some e =>
      rw [step_sendCallback_err parse match_ s e]
      refine ⟨rfl, ?_⟩
      cases hc : s.outcome with
      | none => simp [settle]
      | some x =>
        rw [hc] at ho
        simp only [settle]
        intro hx
        exact ho (by simpa using hx)

/-- The no-timeout invariant holds along any run. -/
theorem run_no_timeout {M R E : Type} (parse : M → Option R)
    (match_ : R → Bool) (events : List (Event M E)) :
    ∀ s : CallState R E,
      s.timerActive = false ∧ s.outcome ≠ some Outcome.timedOut →
      (run parse match_ s events).timerActive = false ∧
        (run parse match_ s events).outcome ≠ some Outcome.timedOut := by
  induction events with
  | nil => intro s h; exact h
  | cons ev rest ih =>
    intro s h
    exact ih (step parse match_ s ev) (step_no_timeout parse match_ s ev h)

/-- From a `connecting` guard, each further request only attaches one more
waiter: no new connect invocation, no resolution yet. -/
theorem connRun_requests_connecting (k : Nat) :
    ∀ g : ConnectGuard, g.state = ConnState.connecting →
      connRun g (List.replicate k ConnEvent.request) =
        { g with waiters := g.waiters + k } := by
  induction k with
  | zero => intro g hg; cases g; simp [connRun, List.replicate]
  | succ n ih =>
    intro g hg
    show connRun (connStep g ConnEvent.request)
      (List.replicate n ConnEvent.request) = _
    have hstep : connStep g ConnEvent.request = { g with waiters := g.waiters + 1 } := by
      simp [connStep, hg]
    rw [hstep]
    rw [ih { g with waiters := g.waiters + 1 } hg]
    cases g
    simp
    omega

/-! ### Claim theorems -/

/-- Claim C1: for a pending `send` call whose listener is attached, a
datagram on which `parse` throws is disregarded for this call — the call's
state is unchanged, so it neither resolves nor rejects and its listener
stays registered — and a later datagram whose parsed value satisfies
`match` still resolves the call with that value. -/
theorem send_parse_failure_disregarded {M R E : Type} (parse : M → Option R)
    (match_ : R → Bool) (s : CallState R E) (m1 m2 : M) (v : R)
    (hl : s.listenerRegistered = true) (ho : s.outcome = none)
    (h1 : parse m1 = none) (h2 : parse m2 = some v) (hm : match_ v = true) :
    step parse match_ s (Event.datagram m1) = s ∧
      (run parse match_ s [Event.datagram m1, Event.datagram m2]).outcome =
        some (Outcome.resolved v) := by
  refine ⟨step_datagram_parse_none parse match_ s m1 h1, ?_⟩
  show (step parse match_ (step parse match_ s (Event.datagram m1))
    (Event.datagram m2)).outcome = some (Outcome.resolved v)
  rw [step_datagram_parse_none parse match_ s m1 h1,
    step_datagram_match parse match_ s m2 v hl h2 hm, ho]
  rfl

/-- Witness for C1: datagram `1` makes `evenHalf` throw and is disregarded;
datagram `6` parses to `3`, matches, and resolves the call. -/
theorem send_parse_failure_disregarded_witness :
    step evenHalf wantsThree (initState Nat JsError 5000) (Event.datagram 1) =
        initState Nat JsError 5000 ∧
      (run evenHalf wantsThree (initState Nat JsError 5000)
        [Event.datagram 1, Event.datagram 6]).outcome =
        some (Outcome.resolved 3) :=
  send_parse_failure_disregarded evenHalf wantsThree
    (initState Nat JsError 5000) 1 6 3 rfl rfl (by decide) (by decide)
    (by decide)

/-- Claim C5: when a datagram's parsed value satisfies the call's match
predicate, the pending call resolves with exactly that parsed value, its
timer is cleared and its listener removed; the resulting state is a fixed
point, so no later event has any further effect on this call. -/
theorem send_match_resolves_and_detaches {M R E : Type} (parse : M → Option R)
    (match_ : R → Bool) (s : CallState R E) (msg : M) (v : R)
    (hl : s.listenerRegistered = true) (ho : s.outcome = none)
    (hp : parse msg = some v) (hm : match_ v = true) :
    step parse match_ s (Event.datagram msg) =
        ⟨false, false, some (Outcome.resolved v)⟩ ∧
      ∀ later : List (Event M E),
        run parse match_ (step parse match_ s (Event.datagram msg)) later =
          ⟨false, false, some (Outcome.resolved v)⟩ := by
  have hstep : step parse match_ s (Event.datagram msg) =
      ⟨false, false, some (Outcome.resolved v)⟩ := by
    rw [step_datagram_match parse match_ s msg v hl hp hm, ho]
    rfl
  refine ⟨hstep, fun later => ?_⟩
  rw [hstep]
  exact run_settled parse match_ (Outcome.resolved v) later

/-- Witness for C5: datagram `6` parses to `3` and matches; afterwards a
further datagram and a timer event change nothing. -/
theorem send_match_resolves_and_detaches_witness :
    step evenHalf wantsThree (initState Nat JsError 100) (Event.datagram 6) =
        ⟨false, false, some (Outcome.resolved 3)⟩ ∧
      run evenHalf wantsThree
          (step evenHalf wantsThree (initState Nat JsError 100)
            (Event.datagram 6))
          [Event.datagram 6, Event.timerFire] =
        ⟨false, false, some (Outcome.resolved 3)⟩ :=
  ⟨(send_match_resolves_and_detaches evenHalf wantsThree
      (initState Nat JsError 100) 6 3 rfl rfl (by decide) (by decide)).1,
    (send_match_resolves_and_detaches evenHalf wantsThree
      (initState Nat JsError 100) 6 3 rfl rfl (by decide) (by decide)).2
      [Event.datagram 6, Event.timerFire]⟩

/-- Claim C9: a successful transmission's send callback (no error argument)
changes nothing, whatever the call's current state: the call is neither
resolved nor rejected, its listener stays as it was and its timer keeps
running — only a matching datagram, the timer or a transport error can
determine the outcome. -/
theorem send_success_callback_noop {M R E : Type} (parse : M → Option R)
    (match_ : R → Bool) (s : CallState R E) :
    step parse match_ s (Event.sendCallback none) = s := rfl

/-- Claim C6: for a call with a nonzero timeout, if every earlier event is
inert for this call (a datagram that fails `parse` or fails `match`, or a
successful send callback) and then the timer fires, the call rejects with
the timeout outcome and its listener is removed — no listener remains
registered. -/
theorem send_timeout_rejects {M R E : Type} (parse : M → Option R)
    (match_ : R → Bool) (t : Nat) (events : List (Event M E))
    (ht : t ≠ 0) (hin : ∀ ev ∈ events, inertEvent parse match_ ev = true) :
    run parse match_ (initState R E t) (events ++ [Event.timerFire]) =
      ⟨false, false, some Outcome.timedOut⟩ := by
  have hrun : run parse match_ (initState R E t) events = initState R E t :=
    run_inert parse match_ events (initState R E t) hin
  have happ : run parse match_ (initState R E t)
      (events ++ [Event.timerFire]) =
      run parse match_ (run parse match_ (initState R E t) events)
        [Event.timerFire] := by
    simp [run, List.foldl_append]
  rw [happ, hrun]
  show step parse match_ (initState R E t) Event.timerFire =
    ⟨false, false, some Outcome.timedOut⟩
  have htimer : (initState R E t).timerActive = true := bne_iff_ne.mpr ht
  rw [step_timer_active parse match_ (initState R E t) htimer]
  rfl

/-- Witness for C6: timeout 50 ms, one unparseable datagram, one
non-matching datagram and a successful send callback precede the timer. -/
theorem send_timeout_rejects_witness :
    run evenHalf wantsThree (initState Nat JsError 50)
      ([Event.datagram 1, Event.datagram 4, Event.sendCallback none] ++
        [Event.timerFire]) =
      ⟨false, false, some Outcome.timedOut⟩ :=
  send_timeout_rejects evenHalf wantsThree 50
    [Event.datagram 1, Event.datagram 4, Event.sendCallback none]
    (by decide) (by decide)

/-- Claim C7: with timeout `0` (the falsy value) no timer is ever started,
and along any event sequence the call can never acquire the timeout
outcome — it can only resolve via a matching datagram or reject via a
transport error; an omitted timeout argument defaults to 5000 ms. -/
theorem send_zero_timeout_never_times_out {M R E : Type}
    (parse : M → Option R) (match_ : R → Bool) (events : List (Event M E)) :
    (initState R E 0).timerActive = false ∧
      (run parse match_ (initState R E 0) events).outcome ≠
        some Outcome.timedOut ∧
      sendTimeout none = 5000 := by
  refine ⟨rfl, ?_, rfl⟩
  exact (run_no_timeout parse match_ events (initState R E 0)
    ⟨rfl, by simp [initState]⟩).2

/-- Witness for C7 at a concrete event sequence containing a stray timer
event and an unparseable datagram. -/
theorem send_zero_timeout_never_times_out_witness :
    (initState Nat JsError 0).timerActive = false ∧
      (run evenHalf wantsThree (initState Nat JsError 0)
        [Event.timerFire, Event.datagram 1]).outcome ≠
        some Outcome.timedOut ∧
      sendTimeout none = 5000 :=
  send_zero_timeout_never_times_out evenHalf wantsThree
    [Event.timerFire, Event.datagram 1]

/-- Claim C8: when the OS reports a transmission error to the send
callback, the pending call's timer is cleared, its listener is removed,
and the call rejects with exactly that transport error. -/
theorem send_transport_error_rejects {M R E : Type} (parse : M → Option R)
    (match_ : R → Bool) (s : CallState R E) (e : E)
    (ho : s.outcome = none) :
    step parse match_ s (Event.sendCallback (some e)) =
      ⟨false, false, some (Outcome.transportFailed e)⟩ := by
  rw [step_sendCallback_err parse match_ s e, ho]
  rfl

/-- Witness for C8 with a concrete OS error value. -/
theorem send_transport_error_rejects_witness :
    step evenHalf wantsThree (initState Nat JsError 5000)
      (Event.sendCallback (some { message := "send ECONNREFUSED" })) =
      ⟨false, false,
        some (Outcome.transportFailed { message := "send ECONNREFUSED" })⟩ :=
  send_transport_error_rejects evenHalf wantsThree
    (initState Nat JsError 5000) { message := "send ECONNREFUSED" } rfl

/-- A call state is determined by its three fields. -/
theorem callState_eq_of_fields {R E : Type} (s : CallState R E)
    (o : Outcome R E) (hl : s.listenerRegistered = false)
    (ht : s.timerActive = false) (ho : s.outcome = some o) :
    s = ⟨false, false, some o⟩ := by
  cases s
  simp_all

/-- Counterexample to C4 as stated: with timeout `0` (which the same spec
allows) a send call can stay unresolved with nothing left to settle it —
after an unparseable datagram and a successful send callback the call has
no outcome, no pending timer, and its listener still attached, so it
remains pending indefinitely, against "never zero". -/
theorem send_can_hang_without_timeout :
    (run evenHalf wantsThree (initState Nat JsError 0)
      [Event.datagram 1, Event.sendCallback none]).outcome = none ∧
      (run evenHalf wantsThree (initState Nat JsError 0)
        [Event.datagram 1, Event.sendCallback none]).timerActive = false ∧
      (run evenHalf wantsThree (initState Nat JsError 0)
        [Event.datagram 1, Event.sendCallback none]).listenerRegistered =
        true := by
  decide

/-- Claim C4 (amended): along any run of a `send` call, (a) whenever the
call has settled, its listener is removed and its timer cleared; (b) the
first settlement is final — once the outcome is set, every later event
leaves the state unchanged, so the call resolves or rejects at most once
with exactly one of the three outcome kinds; (c) when the timeout is
enabled (timeout ≠ 0), every completed execution — one in which the timer
has fired or been cleared — has settled, so the call does not stay
pending. -/
theorem send_single_resolution {M R E : Type} (parse : M → Option R)
    (match_ : R → Bool) (t : Nat) (events : List (Event M E)) :
    ((run parse match_ (initState R E t) events).outcome.isSome = true →
      (run parse match_ (initState R E t) events).listenerRegistered = false ∧
        (run parse match_ (initState R E t) events).timerActive = false) ∧
      (∀ o : Outcome R E,
        (run parse match_ (initState R E t) events).outcome = some o →
        ∀ later : List (Event M E),
          run parse match_ (run parse match_ (initState R E t) events)
            later = run parse match_ (initState R E t) events) ∧
      (t ≠ 0 →
        (run parse match_ (initState R E t) events).timerActive = false →
        (run parse match_ (initState R E t) events).outcome.isSome = true) := by
  have hclean := run_cleanup parse match_ events (initState R E t)
    (by intro h; simp [initState] at h)
  refine ⟨hclean, ?_, ?_⟩
  · intro o ho later
    have hsome : (run parse match_ (initState R E t) events).outcome.isSome =
        true := by
      rw [ho]; rfl
    obtain ⟨hl, htmr⟩ := hclean hsome
    have hs := callState_eq_of_fields
      (run parse match_ (initState R E t) events) o hl htmr ho
    rw [hs]
    exact run_settled parse match_ o later
  · intro ht htmr
    have hlive := run_live parse match_ events (initState R E t)
      (Or.inl (bne_iff_ne.mpr ht))
    cases hlive with
    | inl h => rw [htmr] at h; exact Bool.noConfusion h
    | inr h => exact h

/-- Witness for C4: with timeout 5000 and the timer firing, conjunct (c)
yields a settled outcome and conjunct (b) shows a later datagram has no
further effect. -/
theorem send_single_resolution_witness :
    (run evenHalf wantsThree (initState Nat JsError 5000)
      [Event.timerFire]).outcome.isSome = true ∧
      run evenHalf wantsThree
        (run evenHalf wantsThree (initState Nat JsError 5000)
          [Event.timerFire]) [Event.datagram 6] =
      run evenHalf wantsThree (initState Nat JsError 5000) [Event.timerFire] :=
  ⟨(send_single_resolution evenHalf wantsThree 5000 [Event.timerFire]).2.2
      (by decide) (by decide),
    (send_single_resolution evenHalf wantsThree 5000 [Event.timerFire]).2.1
      Outcome.timedOut (by decide) [Event.datagram 6]⟩

/-- Claim C10: the timeout failure rejects an Error whose message is
exactly "Socket timeout"; a transport failure rejects the error object
supplied by the OS send callback unchanged; and since both failure kinds
reach the caller through the same rejected-error channel, a transport
error carrying that same message is indistinguishable from the timeout
rejection — the message is the only discriminator the interface provides. -/
theorem timeout_error_message_distinguishes :
    rejectionError (Outcome.timedOut : Outcome Nat JsError) =
        some socketTimeoutError ∧
      socketTimeoutError.message = "Socket timeout" ∧
      (∀ e : JsError,
        rejectionError (Outcome.transportFailed e : Outcome Nat JsError) =
          some e) ∧
      ∀ e : JsError, e.message = "Socket timeout" →
        rejectionError (Outcome.transportFailed e : Outcome Nat JsError) =
          rejectionError (Outcome.timedOut : Outcome Nat JsError) := by
  refine ⟨rfl, rfl, fun e => rfl, ?_⟩
  intro e he
  cases e
  simp_all [rejectionError, socketTimeoutError]

/-- Witness for C10: a transport error whose message happens to be
"Socket timeout" rejects the very same error value as the timeout path. -/
theorem timeout_error_message_distinguishes_witness :
    rejectionError
        (Outcome.transportFailed { message := "Socket timeout" } :
          Outcome Nat JsError) =
      rejectionError (Outcome.timedOut : Outcome Nat JsError) :=
  timeout_error_message_distinguishes.2.2.2 { message := "Socket timeout" }
    rfl

/-- Claim C2 is contradicted by the code: on a failed connect, Node invokes
the connect callback with the error, but the callback `_connect` passes —
`() => \x7b resolve(); \x7d` — takes no parameter, so the error is
discarded and the shared promise resolves; every waiter attached to the
in-flight attempt (here three of them) observes success and proceeds to
transmit, and none rejects. -/
theorem connect_failure_swallowed :
    connectCallback (some { message := "connect EHOSTUNREACH" }) =
        PromiseSettle.resolveWith () ∧
      (connRun connInit (List.replicate 3 ConnEvent.request ++
        [ConnEvent.complete])).succeeded = 3 ∧
      (connRun connInit (List.replicate 3 ConnEvent.request ++
        [ConnEvent.complete])).failed = 0 := by
  decide

/-- Claim C3: however many `send` calls concurrently request the
connection before it completes, the underlying connect operation is
invoked exactly once — the first request issues it and every further
request only attaches to the same in-flight attempt as one more waiter. -/
theorem connect_invoked_exactly_once (n : Nat) :
    (connRun connInit
        (List.replicate (n + 1) ConnEvent.request)).connectCalls = 1 ∧
      (connRun connInit (List.replicate (n + 1) ConnEvent.request)).state =
        ConnState.connecting ∧
      (connRun connInit (List.replicate (n + 1) ConnEvent.request)).waiters =
        n + 1 := by
  have h1 : connRun connInit (List.replicate (n + 1) ConnEvent.request) =
      connRun (connStep connInit ConnEvent.request)
        (List.replicate n ConnEvent.request) := rfl
  have h2 : connStep connInit ConnEvent.request =
      { state := ConnState.connecting, waiters := 1, connectCalls := 1,
        succeeded := 0, failed := 0 } := rfl
  rw [h1, h2, connRun_requests_connecting n
    { state := ConnState.connecting, waiters := 1, connectCalls := 1,
      succeeded := 0, failed := 0 } rfl]
  refine ⟨rfl, rfl, ?_⟩
  show 1 + n = n + 1
  omega
